import Mathlib

/-!
Verification of the TruthScope GCP backend (`extension/backend/`:
`check_text.py`, `check_media.py`, `check_video.py`) against its
natural-language specification.

The Python code is shallowly embedded: every external effect (HTTP calls to
Google endpoints, the Cloud SQL database, the Vertex AI model) is modelled by
an explicit input describing the outcome of that effect, and each handler or
helper becomes a pure Lean function translated line by line from the source.
JSON values are modelled by an inductive `Json` type; Python dictionaries are
association lists that keep insertion order, as Python dicts do.
-/

namespace TruthScope

/-- Model of a parsed JSON value (the result of Python `json.loads`).
Numbers are rationals, abstracting Python floats. Objects are ordered
association lists with unique keys, matching Python dict semantics. -/
inductive Json where
  | null
  | bool (b : Bool)
  | num (q : ℚ)
  | str (s : String)
  | arr (elems : List Json)
  | obj (fields : List (String × Json))

/-- The opening-brace character, written via its code point. -/
def lbraceC : Char := Char.ofNat 123

/-- The closing-brace character, written via its code point. -/
def rbraceC : Char := Char.ofNat 125

/-- First value bound to a key in a JSON object (Python `dict` lookup;
parsed objects have unique keys). -/
def jlookup (kvs : List (String × Json)) (k : String) : Option Json :=
  match kvs with
  | [] => none
  | (k', v) :: rest => if k' = k then some v else jlookup rest k

/-- Whether a JSON object has a key (Python `k in d`). -/
def hasKey (kvs : List (String × Json)) (k : String) : Bool :=
  kvs.any (fun p => p.1 = k)

/-- Python `d[k] = v` on a dict: overwrite in place if the key exists
(keeping its position), otherwise append. -/
def setKey (kvs : List (String × Json)) (k : String) (v : Json) :
    List (String × Json) :=
  if hasKey kvs k then
    kvs.map (fun p => if p.1 = k then (k, v) else p)
  else
    kvs ++ [(k, v)]

/-- Python truthiness of a JSON value (`if not x`). -/
def Json.truthy : Json → Bool
  | .null => false
  | .bool b => b
  | .num q => q ≠ 0
  | .str s => s ≠ ""
  | .arr l => !l.isEmpty
  | .obj kvs => !kvs.isEmpty

/-- Substring test (Python `needle in haystack` on strings). -/
def strContains (needle hay : String) : Bool :=
  let n := needle.toList
  let h := hay.toList
  (List.range (h.length + 1)).any (fun i => n.isPrefixOf (h.drop i))

/-- Python `s in l` for a string `s` and a JSON list `l`: membership by
Python equality, which can only hold against string elements. -/
def strMem (s : String) (l : List Json) : Bool :=
  l.any (fun j => match j with | .str t => t = s | _ => false)

/-- Python `needle in j` for a JSON value `j`: key test on objects,
substring test on strings, membership on arrays; `none` models the
`TypeError` raised on the other types. -/
def pyMemStr (needle : String) : Json → Option Bool
  | .obj kvs => some (hasKey kvs needle)
  | .str s => some (strContains needle s)
  | .arr l => some (strMem needle l)
  | _ => none

/-- Escape of one character inside a serialized JSON string
(the common cases of Python `json.dumps`; `\\uXXXX` escaping of other
control and non-ASCII characters is abstracted to the identity). -/
def jsonEscapeChar (c : Char) : String :=
  if c = '"' then "\\\""
  else if c = '\\' then "\\\\"
  else if c = '\n' then "\\n"
  else if c = '\t' then "\\t"
  else if c = '\r' then "\\r"
  else String.singleton c

/-- Escape of a serialized JSON string body. -/
def jsonEscape (s : String) : String :=
  String.join (s.toList.map jsonEscapeChar)

mutual

/-- Serialization of a JSON value, modelling Python `json.dumps` with its
default separators; the textual rendering of numbers abstracts Python's
float `repr`. -/
def Json.dumps : Json → String
  | .null => "null"
  | .bool true => "true"
  | .bool false => "false"
  | .num q => toString q
  | .str s => "\"" ++ jsonEscape s ++ "\""
  | .arr l => "[" ++ Json.dumpsList l ++ "]"
  | .obj kvs => String.singleton lbraceC ++ Json.dumpsFields kvs ++ String.singleton rbraceC

/-- Serialization of the elements of a JSON array. -/
def Json.dumpsList : List Json → String
  | [] => ""
  | [j] => Json.dumps j
  | j :: rest => Json.dumps j ++ ", " ++ Json.dumpsList rest

/-- Serialization of the fields of a JSON object. -/
def Json.dumpsFields : List (String × Json) → String
  | [] => ""
  | [(k, v)] => "\"" ++ jsonEscape k ++ "\": " ++ Json.dumps v
  | (k, v) :: rest => "\"" ++ jsonEscape k ++ "\": " ++ Json.dumps v ++ ", " ++ Json.dumpsFields rest

end

/-! ## Database constants (check_text.py lines 64-78) -/

/-- Default tier given to newly created users (`DEFAULT_USER_TIER`). -/
def DEFAULT_USER_TIER : String := "free"

/-- The tier required by the media endpoints (`PAID_TIER`, check_media.py). -/
def PAID_TIER : String := "paid"

/-- Maximum number of claims checked per article (`FACT_CHECK_CLAIM_LIMIT`). -/
def FACT_CHECK_CLAIM_LIMIT : Nat := 3

/-- Maximum characters per fact-check query (`FACT_CHECK_QUERY_SIZE_LIMIT`). -/
def FACT_CHECK_QUERY_SIZE_LIMIT : Nat := 500

/-! ## get_or_create_user (check_text.py lines 251-317, check_media.py lines
196-250; the two copies implement the same observable behaviour) -/

/-- A row of the `users` table. -/
structure UserRow where
  id : Nat
  google_id : String
  email : Option String
  tier : String

/-- The `AuthenticationError` raised by `get_or_create_user`. -/
inductive UserError where
  | emptyGoogleId

/-- First `users` row matching a Google id (the `SELECT id, tier ... WHERE
google_id = %s` followed by `fetchone()`). -/
def findUser (db : List UserRow) (gid : String) : Option UserRow :=
  db.find? (fun r => r.google_id = gid)

/-- Model of `get_or_create_user`: an empty `google_id` raises
`AuthenticationError` before any database access; an existing row is
returned unchanged; otherwise one new row with tier `DEFAULT_USER_TIER`
and the given email is inserted (`nextId` models the id assigned by the
database) and its id and tier are returned. -/
def get_or_create_user (db : List UserRow) (nextId : Nat) (gid : String)
    (email : Option String) : Except UserError ((Nat × String) × List UserRow) :=
  if gid = "" then .error .emptyGoogleId
  else
    match findUser db gid with
    | some r => .ok ((r.id, r.tier), db)
    | none => .ok ((nextId, DEFAULT_USER_TIER), db ++ [⟨nextId, gid, email, DEFAULT_USER_TIER⟩])

/-! ## update_analysis_results (check_text.py lines 542-582) -/

/-- The `analysis_results` table: each row maps a url to a serialized
`result_json` (the `timestamp` column is not modelled). -/
abbrev ResultsTable := List (String × String)

/-- The `INSERT ... ON CONFLICT (url) DO UPDATE` upsert: the row keyed by
`url` (unique, as `url` is the conflict target) gets the new serialized
value, every other row is untouched; a missing row is inserted. -/
def upsertResult : ResultsTable → String → String → ResultsTable
  | [], url, s => [(url, s)]
  | (u, v) :: rest, url, s =>
      if u = url then (url, s) :: rest else (u, v) :: upsertResult rest url s

/-- Model of `update_analysis_results`: serializes the analysis result with
`json.dumps` and upserts it under the request url. -/
def update_analysis_results (table : ResultsTable) (url : String)
    (analysis_result : Json) : ResultsTable :=
  upsertResult table url (Json.dumps analysis_result)

/-- First row of the `analysis_results` table keyed by a url. -/
def rlookup (table : ResultsTable) (url : String) : Option String :=
  match table with
  | [] => none
  | (u, v) :: rest => if u = url then some v else rlookup rest url

/-! ## Theorems for C5 and C6 -/

theorem rlookup_upsert_self (table : ResultsTable) (url s : String) :
    rlookup (upsertResult table url s) url = some s := by
  induction table with
  | nil => simp [upsertResult, rlookup]
  | cons p rest ih =>
    obtain ⟨a, b⟩ := p
    by_cases ha : a = url
    · simp [upsertResult, ha, rlookup]
    · simp only [upsertResult, ha, if_false, rlookup]
      exact ih

theorem rlookup_upsert_other (table : ResultsTable) (url s u : String)
    (hu : u ≠ url) : rlookup (upsertResult table url s) u = rlookup table u := by
  induction table with
  | nil =>
    have h1 : ¬ url = u := fun h => hu h.symm
    simp [upsertResult, rlookup, h1]
  | cons p rest ih =>
    obtain ⟨a, b⟩ := p
    by_cases ha : a = url
    · have h1 : url ≠ u := fun h => hu h.symm
      simp [upsertResult, ha, rlookup, h1]
    · simp only [upsertResult, ha, if_false, rlookup]
      by_cases hq : a = u
      · simp [hq]
      · simp only [hq, if_false]
        exact ih

/-- C5: for a non-empty google_id, `get_or_create_user` returns the id and
tier of the matching `users` row and leaves the table unchanged when such a
row exists; otherwise it appends exactly one new row with tier `free` and
the given email and returns that row's id and tier; for the empty google_id
it raises `AuthenticationError` (before touching the database). -/
theorem c5_get_or_create_user (db : List UserRow) (nextId : Nat)
    (gid : String) (email : Option String) :
    (gid = "" → get_or_create_user db nextId gid email = .error .emptyGoogleId) ∧
    (gid ≠ "" → ∀ r, findUser db gid = some r →
      get_or_create_user db nextId gid email = .ok ((r.id, r.tier), db)) ∧
    (gid ≠ "" → findUser db gid = none →
      get_or_create_user db nextId gid email =
        .ok ((nextId, "free"), db ++ [⟨nextId, gid, email, "free"⟩])) := by
  refine ⟨fun h => by simp [get_or_create_user, h], fun h r hr => ?_, fun h hn => ?_⟩
  · simp [get_or_create_user, h, hr]
  · simp [get_or_create_user, h, hn, DEFAULT_USER_TIER]

/-- Witness for C5 at concrete inputs: an empty google_id errors, a missing
google_id creates a `free` row, and an existing google_id is returned with
its stored tier and an unchanged table. -/
theorem c5_get_or_create_user_witness :
    get_or_create_user [] 1 "" none = .error .emptyGoogleId ∧
    get_or_create_user [] 1 "g1" (some "a@b.c") =
      .ok ((1, "free"), [⟨1, "g1", some "a@b.c", "free"⟩]) ∧
    get_or_create_user [⟨7, "g2", none, "paid"⟩] 8 "g2" none =
      .ok ((7, "paid"), [⟨7, "g2", none, "paid"⟩]) := by
  refine ⟨(c5_get_or_create_user [] 1 "" none).1 rfl, ?_, ?_⟩
  · exact (c5_get_or_create_user [] 1 "g1" (some "a@b.c")).2.2 (by decide) (by simp [findUser])
  · exact (c5_get_or_create_user [⟨7, "g2", none, "paid"⟩] 8 "g2" none).2.1 (by decide)
      ⟨7, "g2", none, "paid"⟩ (by simp [findUser])

/-- C6: after `update_analysis_results url result` the `analysis_results`
table maps `url` to exactly the newly serialized result (last write wins on
the single row keyed by `url`) and every row with a different url is
unchanged. -/
theorem c6_update_analysis_results (table : ResultsTable) (url : String)
    (result : Json) :
    rlookup (update_analysis_results table url result) url = some (Json.dumps result) ∧
    ∀ u, u ≠ url → rlookup (update_analysis_results table url result) u = rlookup table u := by
  exact ⟨rlookup_upsert_self table url (Json.dumps result),
    fun u hu => rlookup_upsert_other table url (Json.dumps result) u hu⟩

/-- Witness for C6 at a concrete table: the targeted row is overwritten and
the other row is untouched. -/
theorem c6_update_analysis_results_witness :
    rlookup (update_analysis_results [("u1", "old"), ("u2", "keep")] "u1" (Json.str "v"))
      "u1" = some (Json.dumps (Json.str "v")) ∧
    rlookup (update_analysis_results [("u1", "old"), ("u2", "keep")] "u1" (Json.str "v"))
      "u2" = rlookup [("u1", "old"), ("u2", "keep")] "u2" :=
  ⟨(c6_update_analysis_results [("u1", "old"), ("u2", "keep")] "u1" (Json.str "v")).1,
   (c6_update_analysis_results [("u1", "old"), ("u2", "keep")] "u1" (Json.str "v")).2
     "u2" (by decide)⟩

/-! ## JSON repair of the model response (check_text.py lines 853-878)

The cleanup runs on the raw response text before `json.loads`; it is
modelled on `List Char` so that Python's index-based slicing is exact. -/

/-- Python `str.strip()` restricted to the ASCII whitespace of
`Char.isWhitespace`. -/
def pyStrip (l : List Char) : List Char :=
  ((l.dropWhile Char.isWhitespace).reverse.dropWhile Char.isWhitespace).reverse

/-- The characters of the opening fence with a language tag. -/
def fenceJson : List Char := "```json".toList

/-- The characters of a bare fence. -/
def fenceBare : List Char := "```".toList

/-- Lines 855-866: strip, remove a leading markdown fence (```json before
bare ```), remove a trailing ``` fence, and strip again. -/
def stripFences (l : List Char) : List Char :=
  let c1 := pyStrip l
  let c2 :=
    if fenceJson.isPrefixOf c1 then c1.drop 7
    else if fenceBare.isPrefixOf c1 then c1.drop 3
    else c1
  let c3 := if fenceBare.isSuffixOf c2 then c2.take (c2.length - 3) else c2
  pyStrip c3

/-- Index of the first occurrence of a character (Python `str.find`,
with `none` for -1). -/
def findIdxChar (c : Char) : List Char → Option Nat
  | [] => none
  | a :: rest => if a = c then some 0 else (findIdxChar c rest).map (· + 1)

/-- Index of the last occurrence of a character (Python `str.rfind`,
with `none` for -1). -/
def lastIdxChar (c : Char) (l : List Char) : Option Nat :=
  (findIdxChar c l.reverse).map (fun r => l.length - 1 - r)

/-- Lines 869-875 as written: slice from the first opening brace to the
last closing brace inclusive (`cleaned_text[start_idx:end_idx+1]`), leaving
the text unchanged when either index is -1. -/
def sliceBraces (t : List Char) : List Char :=
  match findIdxChar lbraceC t, lastIdxChar rbraceC t with
  | some s, some e => (t.take (e + 1)).drop s
  | _, _ => t

/-- Lines 853-878 as written: fence stripping, then, when the text does not
start with an opening brace (`startswith` on one character, i.e. a test of
the head), the index-based brace slice. -/
def cleanModelResponse (l : List Char) : List Char :=
  let t := stripFences l
  if t.head? = some lbraceC then t else sliceBraces t

/-- The claim's reading of the brace heuristic, stated without indices: the
part of the text from the first opening brace onwards, cut after the last
closing brace; unchanged when either brace is absent. -/
def specExtractBraces (t : List Char) : List Char :=
  if lbraceC ∈ t ∧ rbraceC ∈ t then
    ((t.dropWhile (· != lbraceC)).reverse.dropWhile (· != rbraceC)).reverse
  else t

/-- The claim's description of the whole repair: fence stripping and
re-stripping, then, only if the remainder does not begin with an opening
brace, the first-to-last-brace extraction. -/
def specJsonRepair (l : List Char) : List Char :=
  let t := stripFences l
  if t.head? = some lbraceC then t else specExtractBraces t

theorem findIdxChar_eq_none_iff (c : Char) (l : List Char) :
    findIdxChar c l = none ↔ c ∉ l := by
  induction l with
  | nil => simp [findIdxChar]
  | cons a rest ih =>
    by_cases ha : a = c
    · simp [findIdxChar, ha]
    · have hac : ¬ c = a := fun h => ha h.symm
      simp [findIdxChar, ha, ih, hac]

theorem mem_of_findIdxChar_some (c : Char) (l : List Char) (s : Nat)
    (h : findIdxChar c l = some s) : c ∈ l := by
  by_contra hm
  rw [← findIdxChar_eq_none_iff] at hm
  rw [hm] at h
  exact Option.noConfusion h

theorem findIdxChar_lt_length (c : Char) (l : List Char) (s : Nat)
    (h : findIdxChar c l = some s) : s < l.length := by
  induction l generalizing s with
  | nil => exact Option.noConfusion h
  | cons a rest ih =>
    by_cases ha : a = c
    · rw [findIdxChar, if_pos ha] at h
      have hs : s = 0 := ((Option.some.injEq 0 s).mp h).symm
      simp [hs]
    · rw [findIdxChar, if_neg ha] at h
      rw [Option.map_eq_some'] at h
      obtain ⟨s', hs', hss⟩ := h
      have := ih s' hs'
      simp only [List.length_cons]
      omega

theorem dropWhile_eq_drop_findIdxChar (c : Char) (l : List Char) (s : Nat)
    (h : findIdxChar c l = some s) : l.dropWhile (· != c) = l.drop s := by
  induction l generalizing s with
  | nil => exact Option.noConfusion h
  | cons a rest ih =>
    by_cases ha : a = c
    · rw [findIdxChar, if_pos ha] at h
      have hs : s = 0 := ((Option.some.injEq 0 s).mp h).symm
      subst hs
      have hb : (a != c) = false := by simp [ha]
      simp [List.dropWhile_cons, hb]
    · rw [findIdxChar, if_neg ha] at h
      rw [Option.map_eq_some'] at h
      obtain ⟨s', hs', hss⟩ := h
      subst hss
      have hb : (a != c) = true := by simp [ha]
      simp only [List.dropWhile_cons, hb, if_true, List.drop_succ_cons]
      exact ih s' hs'

theorem not_mem_take_findIdxChar (c : Char) (l : List Char) (s : Nat)
    (h : findIdxChar c l = some s) : c ∉ l.take s := by
  induction l generalizing s with
  | nil => exact Option.noConfusion h
  | cons a rest ih =>
    by_cases ha : a = c
    · rw [findIdxChar, if_pos ha] at h
      have hs : s = 0 := ((Option.some.injEq 0 s).mp h).symm
      subst hs
      simp
    · rw [findIdxChar, if_neg ha] at h
      rw [Option.map_eq_some'] at h
      obtain ⟨s', hs', hss⟩ := h
      subst hss
      simp only [List.take_succ_cons, List.mem_cons, not_or]
      exact ⟨fun hc => ha hc.symm, ih s' hs'⟩

theorem findIdxChar_append_of_lt (c : Char) (p q : List Char) (i : Nat)
    (h : findIdxChar c (p ++ q) = some i) (hi : i < p.length) :
    findIdxChar c p = some i := by
  induction p generalizing i with
  | nil => simp at hi
  | cons a rest ih =>
    by_cases ha : a = c
    · rw [List.cons_append, findIdxChar, if_pos ha] at h
      have hs : i = 0 := ((Option.some.injEq 0 i).mp h).symm
      subst hs
      rw [findIdxChar, if_pos ha]
    · rw [List.cons_append, findIdxChar, if_neg ha] at h
      rw [Option.map_eq_some'] at h
      obtain ⟨i', hi', hii⟩ := h
      subst hii
      rw [findIdxChar, if_neg ha, Option.map_eq_some']
      exact ⟨i', ih i' hi' (by simpa using hi), rfl⟩

theorem dropWhile_eq_nil_of_all (p : Char → Bool) (l : List Char)
    (h : ∀ a ∈ l, p a = true) : l.dropWhile p = [] := by
  induction l with
  | nil => rfl
  | cons a rest ih =>
    have ha := h a (List.mem_cons_self a rest)
    simp only [List.dropWhile, ha]
    exact ih (fun b hb => h b (List.mem_cons_of_mem a hb))

theorem reverse_eq_reverse_take (l : List Char) (s : Nat) (_hs : s ≤ l.length) :
    (l.drop s).reverse = l.reverse.take (l.length - s) := by
  conv_rhs => rw [← List.take_append_drop s l]
  rw [List.reverse_append,
    List.take_append_of_le_length (by simp),
    List.take_of_length_le (by simp)]

theorem reverse_drop_reverse (l : List Char) (n : Nat) (hn : n ≤ l.length) :
    (l.reverse.drop n).reverse = l.take (l.length - n) := by
  have h := reverse_eq_reverse_take l.reverse n (by simpa using hn)
  simpa using h

theorem sliceBraces_eq_specExtract (t : List Char) :
    sliceBraces t = specExtractBraces t := by
  unfold sliceBraces
  cases hf : findIdxChar lbraceC t with
  | none =>
    have hmem : lbraceC ∉ t := (findIdxChar_eq_none_iff lbraceC t).mp hf
    cases hr : lastIdxChar rbraceC t <;> simp [specExtractBraces, hmem]
  | some s =>
    have hmem1 : lbraceC ∈ t := mem_of_findIdxChar_some lbraceC t s hf
    have hslen : s < t.length := findIdxChar_lt_length lbraceC t s hf
    cases hr0 : findIdxChar rbraceC t.reverse with
    | none =>
      have hmem2 : rbraceC ∉ t := by
        have := (findIdxChar_eq_none_iff rbraceC t.reverse).mp hr0
        simpa using this
      have hr : lastIdxChar rbraceC t = none := by
        simp [lastIdxChar, hr0]
      rw [hr]
      simp [specExtractBraces, hmem2]
    | some re =>
      have hrlen : re < t.length := by
        have := findIdxChar_lt_length rbraceC t.reverse re hr0
        simpa using this
      have hmem2 : rbraceC ∈ t := by
        have := mem_of_findIdxChar_some rbraceC t.reverse re hr0
        simpa using this
      have hr : lastIdxChar rbraceC t = some (t.length - 1 - re) := by
        simp [lastIdxChar, hr0]
      rw [hr]
      simp only [specExtractBraces, hmem1, hmem2, and_self, if_true]
      rw [dropWhile_eq_drop_findIdxChar lbraceC t s hf]
      have hrev : (t.drop s).reverse = t.reverse.take (t.length - s) :=
        reverse_eq_reverse_take t s (le_of_lt hslen)
      by_cases hcase : re < t.length - s
      · have hfind2 : findIdxChar rbraceC (t.drop s).reverse = some re := by
          rw [hrev]
          apply findIdxChar_append_of_lt rbraceC _ (t.reverse.drop (t.length - s))
          · rwa [List.take_append_drop]
          · simp only [List.length_take, List.length_reverse]
            omega
        rw [dropWhile_eq_drop_findIdxChar rbraceC _ re hfind2]
        rw [reverse_drop_reverse (t.drop s) re
          (by simp only [List.length_drop]; omega)]
        have h1 : t.length - 1 - re + 1 = t.length - re := by omega
        rw [h1, List.drop_take]
        have h2 : (t.drop s).length - re = t.length - re - s := by
          simp only [List.length_drop]
          omega
        rw [h2]
      · have hall : ∀ a ∈ (t.drop s).reverse, (a != rbraceC) = true := by
          intro a hmem
          rw [hrev] at hmem
          have hsplit : t.reverse.take (t.length - s) =
              (t.reverse.take re).take (t.length - s) := by
            rw [List.take_take, min_eq_left (by omega)]
          rw [hsplit] at hmem
          have hmem' : a ∈ t.reverse.take re :=
            (List.take_prefix _ _).subset hmem
          have hnot := not_mem_take_findIdxChar rbraceC t.reverse re hr0
          by_contra hbe
          simp only [bne_iff_ne, ne_eq, not_not] at hbe
          exact hnot (hbe ▸ hmem')
        rw [dropWhile_eq_nil_of_all _ _ hall]
        have h1 : t.length - 1 - re + 1 = t.length - re := by omega
        rw [h1]
        have h2 : (t.take (t.length - re)).length ≤ s := by
          simp only [List.length_take]
          omega
        rw [List.drop_eq_nil_of_le h2, List.reverse_nil]

/-- C2: the JSON-repair code (fence stripping, re-stripping, and the
conditional first-brace/last-brace slice of check_text.py lines 853-878)
computes exactly the transformation the claim describes, for every model
response text. -/
theorem c2_json_repair (l : List Char) :
    cleanModelResponse l = specJsonRepair l := by
  unfold cleanModelResponse specJsonRepair
  by_cases h : (stripFences l).head? = some lbraceC
  · simp [h]
  · simp [h, sliceBraces_eq_specExtract]

/-! ## Token verification and the auth decorators
(check_text.py lines 205-374, check_media.py lines 163-307)

The outcome of the HTTPS call to Google's userinfo endpoint is an input of
the model: a final response (status plus decoded body, `none` for an
undecodable body), a timeout, or another network error. -/

/-- Outcome of `requests.get` on the userinfo endpoint. -/
inductive UserinfoNet where
  | response (status : Nat) (body : Option Json)
  | timeout
  | netError

/-- The ways `verify_google_access_token` raises `AuthenticationError`. -/
inductive AuthFail where
  | timeout
  | network
  | http (status : Nat)
  | badJson
  | invalidUserInfo
  | missingSub

/-- Model of `verify_google_access_token`: `raise_for_status` raises
`HTTPError` exactly for statuses 400-599; an undecodable body raises
`JSONDecodeError`; a body that is not an object carrying an `id` key fails
(the falsy and no-`id` cases raise explicitly, a truthy non-dict body
raises `TypeError`/`AttributeError` into the blanket handler, all ending in
`AuthenticationError`); otherwise the body is returned with `sub` set to
the `id` value. -/
def verify_google_access_token : UserinfoNet → Except AuthFail Json
  | .timeout => .error .timeout
  | .netError => .error .network
  | .response status body =>
    if 400 ≤ status ∧ status < 600 then .error (.http status)
    else
      match body with
      | none => .error .badJson
      | some j =>
        match j with
        | .obj kvs =>
          match jlookup kvs "id" with
          | some v => .ok (.obj (setKey kvs "sub" v))
          | none => .error .invalidUserInfo
        | _ => .error .invalidUserInfo

/-- The `DatabaseError` that `get_or_create_user` may raise inside the
decorators. -/
inductive DbErr where
  | failure (msg : String)

/-- The early replies a decorator can produce instead of running the route. -/
inductive EarlyReply where
  | missingHeader
  | emptyToken
  | authFailed (e : AuthFail)
  | dbError (e : DbErr)
  | notPaid

/-- HTTP status attached to each early reply by the decorators. -/
def EarlyReply.status : EarlyReply → Nat
  | .missingHeader => 401
  | .emptyToken => 401
  | .authFailed _ => 401
  | .dbError _ => 500
  | .notPaid => 403

/-- The authenticated user context stored in `g.user`. -/
structure AuthCtx where
  id : Nat
  tier : String
  google_id : Json
  email : Option Json

/-- Index of the first occurrence of a separator in a character list. -/
def firstOccIdx (sep l : List Char) : Option Nat :=
  (List.range (l.length + 1)).find? (fun i => sep.isPrefixOf (l.drop i))

/-- Python `str.startswith` as a character-list test. -/
def pyStartsWith (p : String) (s : String) : Bool :=
  p.toList.isPrefixOf s.toList

/-- Python `header.split('Bearer ')[1]`: the piece between the first
occurrence of the separator and the following one (or the end). The
`none` branch of the outer match (separator absent, where Python's `[1]`
would raise `IndexError`) is unreachable under the decorator's
`startswith` guard. -/
def bearerToken (hdr : String) : String :=
  let sep := "Bearer ".toList
  let l := hdr.toList
  match firstOccIdx sep l with
  | none => ""
  | some i =>
    let rest := l.drop (i + sep.length)
    match firstOccIdx sep rest with
    | none => String.mk rest
    | some j => String.mk (rest.take j)

/-- Model of the `require_auth` decorator (check_text.py lines 320-374):
header checks, token verification, the falsy check on the verified
`sub`, then the user lookup (whose outcome `db` is an input); the result
is either an early error reply or the context in which the wrapped route
runs. -/
def require_auth (authHeader : Option String) (net : UserinfoNet)
    (db : Except DbErr (Nat × String)) : Sum EarlyReply AuthCtx :=
  match authHeader with
  | none => .inl .missingHeader
  | some hdr =>
    if pyStartsWith "Bearer " hdr then
      let token := bearerToken hdr
      if token = "" then .inl .emptyToken
      else
        match verify_google_access_token net with
        | .error e => .inl (.authFailed e)
        | .ok info =>
          let gid :=
            match info with
            | .obj kvs => (jlookup kvs "sub").getD .null
            | _ => .null
          if gid.truthy then
            match db with
            | .error e => .inl (.dbError e)
            | .ok (uid, tier) =>
              let email :=
                match info with
                | .obj kvs => jlookup kvs "email"
                | _ => none
              .inr ⟨uid, tier, gid, email⟩
          else .inl (.authFailed .missingSub)
    else .inl .missingHeader

/-- Model of `require_auth_and_paid_tier` (check_media.py lines 252-307).
Its authentication steps are line for line those of `require_auth` (the
duplicated code in check_media.py lines 252-296 matches check_text.py
lines 320-374); after them the tier gate returns 403 unless the stored
tier equals `PAID_TIER`. -/
def require_auth_and_paid_tier (authHeader : Option String)
    (net : UserinfoNet) (db : Except DbErr (Nat × String)) :
    Sum EarlyReply AuthCtx :=
  match require_auth authHeader net db with
  | .inl r => .inl r
  | .inr ctx => if ctx.tier = PAID_TIER then .inr ctx else .inl .notPaid

/-- Whether the userinfo body is an object carrying an `id` key, the shape
the verifier accepts. -/
def isObjWithId : Json → Bool
  | .obj kvs => hasKey kvs "id"
  | _ => false

theorem jlookup_eq_none_of_hasKey_false (kvs : List (String × Json))
    (k : String) (h : hasKey kvs k = false) : jlookup kvs k = none := by
  induction kvs with
  | nil => rfl
  | cons p rest ih =>
    obtain ⟨k', v⟩ := p
    simp only [hasKey, List.any_cons, Bool.or_eq_false_iff,
      decide_eq_false_iff_not] at h
    simp only [jlookup, if_neg h.1]
    exact ih h.2

theorem verify_error_of_not_objWithId (status : Nat) (body : Option Json)
    (hs : ¬ (400 ≤ status ∧ status < 600))
    (hb : ∀ j, body = some j → isObjWithId j = false) :
    ∃ e, verify_google_access_token (.response status body) = .error e := by
  simp only [verify_google_access_token]
  rw [if_neg hs]
  match body with
  | none => exact ⟨.badJson, rfl⟩
  | some j =>
    have hj := hb j rfl
    match j with
    | .null | .bool _ | .num _ | .str _ | .arr _ => exact ⟨.invalidUserInfo, rfl⟩
    | .obj kvs =>
      simp only [isObjWithId] at hj
      exact ⟨.invalidUserInfo,
        by simp [jlookup_eq_none_of_hasKey_false kvs "id" hj]⟩

theorem require_auth_401_of_verify_error (authHeader : Option String)
    (net : UserinfoNet) (db : Except DbErr (Nat × String)) (e : AuthFail)
    (hv : verify_google_access_token net = .error e) :
    ∃ r, require_auth authHeader net db = .inl r ∧ r.status = 401 := by
  cases authHeader with
  | none => exact ⟨.missingHeader, rfl, rfl⟩
  | some hdr =>
    simp only [require_auth]
    by_cases hb : pyStartsWith "Bearer " hdr
    · rw [if_pos hb]
      by_cases ht : bearerToken hdr = ""
      · rw [if_pos ht]
        exact ⟨.emptyToken, rfl, rfl⟩
      · rw [if_neg ht, hv]
        exact ⟨.authFailed e, rfl, rfl⟩
    · rw [if_neg hb]
      exact ⟨.missingHeader, rfl, rfl⟩

/-- C3 (amended): a POST to /analyze whose Authorization header is absent,
does not begin with `Bearer `, carries an empty token, or carries a token
the userinfo verification rejects - an HTTP error status 400-599 (the
statuses `raise_for_status` raises for), a timeout, a network error, an
undecodable body, or a body that is not an object with an `id` field - is
answered 401 and the wrapped route (the analysis) is not run. -/
theorem c3_unauthorized_requests_get_401 (authHeader : Option String)
    (net : UserinfoNet) (db : Except DbErr (Nat × String))
    (hbad : authHeader = none
      ∨ (∃ hdr, authHeader = some hdr ∧ pyStartsWith "Bearer " hdr = false)
      ∨ (∃ hdr, authHeader = some hdr ∧ pyStartsWith "Bearer " hdr = true ∧
          bearerToken hdr = "")
      ∨ net = .timeout
      ∨ net = .netError
      ∨ (∃ status body, net = .response status body ∧ 400 ≤ status ∧ status < 600)
      ∨ (∃ status, net = .response status none ∧ ¬ (400 ≤ status ∧ status < 600))
      ∨ (∃ status j, net = .response status (some j) ∧
          ¬ (400 ≤ status ∧ status < 600) ∧ isObjWithId j = false)) :
    ∃ r, require_auth authHeader net db = .inl r ∧ r.status = 401 := by
  rcases hbad with h | h | h | h | h | h | h | h
  · subst h
    exact ⟨.missingHeader, rfl, rfl⟩
  · obtain ⟨hdr, rfl, hb⟩ := h
    simp only [require_auth]
    rw [if_neg (by simp [hb])]
    exact ⟨.missingHeader, rfl, rfl⟩
  · obtain ⟨hdr, rfl, hb, ht⟩ := h
    simp only [require_auth]
    rw [if_pos hb, if_pos ht]
    exact ⟨.emptyToken, rfl, rfl⟩
  · subst h
    exact require_auth_401_of_verify_error _ _ db .timeout rfl
  · subst h
    exact require_auth_401_of_verify_error _ _ db .network rfl
  · obtain ⟨status, body, rfl, hs⟩ := h
    refine require_auth_401_of_verify_error _ _ db (.http status) ?_
    simp only [verify_google_access_token]
    rw [if_pos hs]
  · obtain ⟨status, rfl, hs⟩ := h
    obtain ⟨e, he⟩ := verify_error_of_not_objWithId status none hs
      (fun j hj => Option.noConfusion hj)
    exact require_auth_401_of_verify_error _ _ db e he
  · obtain ⟨status, j, rfl, hs, hj⟩ := h
    obtain ⟨e, he⟩ := verify_error_of_not_objWithId status (some j) hs
      (fun j' hj' => by
        injection hj' with hjj
        rw [← hjj]
        exact hj)
    exact require_auth_401_of_verify_error _ _ db e he

/-- Witness for C3 (amended) at concrete inputs: a timeout of the userinfo
call leads to a 401 early reply. -/
theorem c3_unauthorized_requests_get_401_witness :
    ∃ r, require_auth (some "Bearer tok") .timeout (.ok (1, "free")) = .inl r ∧
      r.status = 401 :=
  c3_unauthorized_requests_get_401 (some "Bearer tok") .timeout (.ok (1, "free"))
    (Or.inr (Or.inr (Or.inr (Or.inl rfl))))

/-- Counterexample to C3 as stated: a request whose bearer token draws a
status-300 userinfo response (non-2xx, hence rejected according to the
claim) with a decodable body carrying an `id`. The code's
`raise_for_status` raises only for 4xx/5xx, so verification accepts it and
the decorator proceeds to the route instead of answering 401. -/
theorem c3_counterexample_status_300 :
    require_auth (some "Bearer tok")
      (.response 300 (some (.obj [("id", .str "123")])))
      (.ok (7, "free")) =
    .inr ⟨7, "free", .str "123", none⟩ := rfl

/-- C4: for a request on which authentication succeeds (yielding the user
context), the media decorator answers 403 (an access-denied error) without
running the route when the stored tier is not `paid`, and proceeds to the
route function when the tier is `paid`. -/
theorem c4_paid_tier_gate (authHeader : Option String) (net : UserinfoNet)
    (db : Except DbErr (Nat × String)) (ctx : AuthCtx)
    (hauth : require_auth authHeader net db = .inr ctx) :
    (ctx.tier ≠ "paid" →
      require_auth_and_paid_tier authHeader net db = .inl .notPaid ∧
      EarlyReply.notPaid.status = 403) ∧
    (ctx.tier = "paid" →
      require_auth_and_paid_tier authHeader net db = .inr ctx) := by
  have hmain : require_auth_and_paid_tier authHeader net db =
      (if ctx.tier = PAID_TIER then Sum.inr ctx else Sum.inl EarlyReply.notPaid) := by
    unfold require_auth_and_paid_tier
    rw [hauth]
  constructor
  · intro hne
    rw [hmain, if_neg (by simpa [PAID_TIER] using hne)]
    exact ⟨rfl, rfl⟩
  · intro he
    rw [hmain, if_pos (by simpa [PAID_TIER] using he)]

/-- Witness for C4 at concrete inputs: a verified `free` user is denied
with 403 and a verified `paid` user reaches the route. -/
theorem c4_paid_tier_gate_witness :
    (require_auth_and_paid_tier (some "Bearer t")
      (.response 200 (some (.obj [("id", .str "g")]))) (.ok (1, "free")) =
        .inl .notPaid ∧ EarlyReply.notPaid.status = 403) ∧
    require_auth_and_paid_tier (some "Bearer t")
      (.response 200 (some (.obj [("id", .str "g")]))) (.ok (2, "paid")) =
        .inr ⟨2, "paid", .str "g", none⟩ :=
  ⟨(c4_paid_tier_gate (some "Bearer t")
      (.response 200 (some (.obj [("id", .str "g")]))) (.ok (1, "free"))
      ⟨1, "free", .str "g", none⟩ rfl).1 (by decide),
   (c4_paid_tier_gate (some "Bearer t")
      (.response 200 (some (.obj [("id", .str "g")]))) (.ok (2, "paid"))
      ⟨2, "paid", .str "g", none⟩ rfl).2 rfl⟩

/-! ## fact_check_claims (check_text.py lines 466-539)

The per-claim call to the Fact Check Tools API is modelled by an oracle
from the (truncated) query string to its outcome: an error message (any of
the four `except` arms of the loop body collects one into `tool_errors`) or
success together with the at most one result dictionary that lines 495-515
extract from the response. -/

/-- Python slicing `s[:n]` on a string: the first `n` characters. -/
def pyTruncate (n : Nat) (s : String) : String := String.mk (s.toList.take n)

/-- One entry appended to `all_results` (lines 509-515). -/
structure FactCheckItem where
  source : String
  title : String
  url : String
  claim : String
  review_rating : String

/-- The exceptions `fact_check_claims` raises: `ConfigurationError` for a
missing key, `ApiError` carrying the collected per-claim error messages. -/
inductive FcError where
  | config
  | api (msgs : List String)

/-- Model of `fact_check_claims`, returning the list of queries sent to
the API together with the result. The loop walks `claims[:3]`, truncates
each claim to 500 characters, collects successes into `all_results` and
failures into `tool_errors`, and only after processing every claim raises
`ApiError` if any error was collected, discarding `all_results`. -/
def fact_check_claims (keyConfigured : Bool)
    (api : String → Except String (Option FactCheckItem))
    (claims : List String) :
    List String × Except FcError (List FactCheckItem) :=
  if keyConfigured = false then ([], .error .config)
  else if claims.isEmpty then ([], .ok [])
  else
    let toCheck := (claims.take FACT_CHECK_CLAIM_LIMIT).map
      (fun c => pyTruncate FACT_CHECK_QUERY_SIZE_LIMIT c)
    let results := toCheck.filterMap
      (fun q => match api q with | .ok o => o | .error _ => none)
    let errors := toCheck.filterMap
      (fun q => match api q with | .error e => some e | .ok _ => none)
    (toCheck, if errors.isEmpty then .ok results else .error (.api errors))

/-- C9: with the API key configured, `fact_check_claims` queries exactly
the first 3 claims truncated to 500 characters each; it returns the
(possibly empty) collected result list only when every examined claim's
request succeeded, and raises `ApiError` - discarding the successful
results - when the request for any examined claim failed. -/
theorem c9_fact_check_claims
    (api : String → Except String (Option FactCheckItem))
    (claims : List String) :
    (fact_check_claims true api claims).1 =
      (claims.take 3).map (fun c => pyTruncate 500 c) ∧
    ((∀ q ∈ (fact_check_claims true api claims).1, (api q).isOk = true) →
      (fact_check_claims true api claims).2 =
        .ok ((fact_check_claims true api claims).1.filterMap
          (fun q => match api q with | .ok o => o | .error _ => none))) ∧
    ((∃ q ∈ (fact_check_claims true api claims).1, (api q).isOk = false) →
      ∃ msgs, (fact_check_claims true api claims).2 = .error (.api msgs)) := by
  by_cases hc : claims.isEmpty
  · have hnil : claims = [] := List.isEmpty_iff.mp hc
    subst hnil
    refine ⟨rfl, fun _ => rfl, fun hex => ?_⟩
    obtain ⟨q, hq, _⟩ := hex
    simp [fact_check_claims] at hq
  · have hmain : fact_check_claims true api claims =
        ((claims.take 3).map (fun c => pyTruncate 500 c),
          if (((claims.take 3).map (fun c => pyTruncate 500 c)).filterMap
              (fun q => match api q with | .error e => some e | .ok _ => none)).isEmpty then
            .ok (((claims.take 3).map (fun c => pyTruncate 500 c)).filterMap
              (fun q => match api q with | .ok o => o | .error _ => none))
          else .error (.api (((claims.take 3).map (fun c => pyTruncate 500 c)).filterMap
            (fun q => match api q with | .error e => some e | .ok _ => none)))) := by
      simp only [fact_check_claims, FACT_CHECK_CLAIM_LIMIT,
        FACT_CHECK_QUERY_SIZE_LIMIT, hc, if_false]
      rfl
    have h1 : (fact_check_claims true api claims).1 =
        (claims.take 3).map (fun c => pyTruncate 500 c) := by rw [hmain]
    refine ⟨h1, fun hall => ?_, fun hex => ?_⟩
    · rw [h1] at hall
      have herr : ((claims.take 3).map (fun c => pyTruncate 500 c)).filterMap
          (fun q => match api q with | .error e => some e | .ok _ => none) = [] := by
        rw [List.filterMap_eq_nil_iff]
        intro q hq
        have hok := hall q hq
        cases hapi : api q with
        | ok o => rfl
        | error e => rw [hapi] at hok; simp [Except.isOk, Except.toBool] at hok
      rw [h1, hmain]
      exact if_pos (by rw [herr]; rfl)
    · obtain ⟨q, hq, hfalse⟩ := hex
      rw [h1] at hq
      have herrne : ¬ ((((claims.take 3).map (fun c => pyTruncate 500 c)).filterMap
          (fun q => match api q with | .error e => some e | .ok _ => none)).isEmpty
            = true) := by
        intro hempty
        rw [List.isEmpty_iff, List.filterMap_eq_nil_iff] at hempty
        have hm := hempty q hq
        cases hapi : api q with
        | ok o => rw [hapi] at hfalse; simp [Except.isOk, Except.toBool] at hfalse
        | error e => rw [hapi] at hm; exact Option.noConfusion hm
      have hres : (fact_check_claims true api claims).2 =
          .error (.api (((claims.take 3).map (fun c => pyTruncate 500 c)).filterMap
            (fun q => match api q with | .error e => some e | .ok _ => none))) := by
        rw [hmain]
        exact if_neg herrne
      exact ⟨_, hres⟩

/-- The oracle used by the C9 witness: the query `gamma` fails, the others
succeed (with a hit for `alpha`). -/
def c9WitnessApi (q : String) : Except String (Option FactCheckItem) :=
  if q = "gamma" then .error "Error calling Google Fact Check API"
  else if q = "alpha" then
    .ok (some ⟨"PolitiFact", "A title", "https://x", "A claim", "False"⟩)
  else .ok none

/-- Witness for C9 at concrete inputs: of four claims only the first three
are queried, and a single failing claim turns the whole call into an
`ApiError` even though another claim succeeded. -/
theorem c9_fact_check_claims_witness :
    (fact_check_claims true c9WitnessApi ["alpha", "beta", "gamma", "delta"]).1 =
      ((["alpha", "beta", "gamma", "delta"].take 3).map (fun c => pyTruncate 500 c)) ∧
    ∃ msgs, (fact_check_claims true c9WitnessApi ["alpha", "beta", "gamma", "delta"]).2 =
      .error (.api msgs) :=
  ⟨(c9_fact_check_claims c9WitnessApi ["alpha", "beta", "gamma", "delta"]).1,
   (c9_fact_check_claims c9WitnessApi ["alpha", "beta", "gamma", "delta"]).2.2
     (by decide)⟩

/-! ## The deepfake video endpoint (check_video.py lines 11-41)

The Hugging Face pipeline call is modelled by its outcome: an exception
message or the list of label/score dictionaries it returns. -/

/-- One entry of the pipeline's result list. -/
structure ClsScore where
  label : String
  score : ℚ

/-- A response of the `/analyze-video` handler: a JSON error with a status,
or a plain text body (which Flask serves with status 200). -/
inductive VideoResponse where
  | jsonError (status : Nat) (msg : String)
  | textBody (body : String)

/-- Python `f"{x:.1f}"` on a non-negative value: one decimal digit, with
`round` abstracting the float-level rounding of the exact double. -/
def pyFormat1f (x : ℚ) : String :=
  let n : Int := round (10 * x)
  (if n < 0 then "-" else "") ++ toString (n.natAbs / 10) ++ "." ++ toString (n.natAbs % 10)

/-- Model of the `analyze_video` handler: the first component counts the
invocations of the classification pipeline. A request without a `video`
file is answered 400 before any pipeline call; otherwise the pipeline runs
exactly once on the saved file, a raised `PipelineException` or other
exception yields a 500 JSON error, and fewer than two result entries make
`result[1]` raise `IndexError` (also 500); with at least two entries the
handler returns the formatted two-line percentage report. -/
def analyze_video (hasVideoFile : Bool)
    (pipeOutcome : Except String (List ClsScore)) : Nat × VideoResponse :=
  if hasVideoFile = false then (0, .jsonError 400 "No video file provided.")
  else
    match pipeOutcome with
    | .error e => (1, .jsonError 500 e)
    | .ok results =>
      match results.get? 0, results.get? 1 with
      | some r0, some r1 =>
        (1, .textBody ("Real: " ++ pyFormat1f (r0.score * 100) ++ "% confident\n" ++
          "Deepfake: " ++ pyFormat1f (r1.score * 100) ++ "% confident"))
      | _, _ => (1, .jsonError 500 "list index out of range")

/-- C8: a POST to /analyze-video with a `video` file on which the pipeline
returns at least two entries invokes the pipeline exactly once and returns
the two-line string with the Real and Deepfake confidence percentages
(line one for `result[0]`, line two for `result[1]`); without a `video`
file it returns 400 and the pipeline is never invoked. -/
theorem c8_analyze_video (out : Except String (List ClsScore))
    (r0 r1 : ClsScore) (rest : List ClsScore) :
    (out = .ok (r0 :: r1 :: rest) →
      analyze_video true out =
        (1, .textBody ("Real: " ++ pyFormat1f (r0.score * 100) ++ "% confident\n" ++
          "Deepfake: " ++ pyFormat1f (r1.score * 100) ++ "% confident"))) ∧
    analyze_video false out = (0, .jsonError 400 "No video file provided.") := by
  constructor
  · intro h
    subst h
    rfl
  · rfl

/-- Witness for C8 at concrete inputs: a two-entry pipeline result is
reported on two lines after one pipeline call, and a missing file is a 400
with no pipeline call. -/
theorem c8_analyze_video_witness :
    analyze_video true (.ok [⟨"Real", 987/1000⟩, ⟨"Deepfake", 13/1000⟩]) =
      (1, .textBody ("Real: " ++ pyFormat1f ((987/1000 : ℚ) * 100) ++ "% confident\n" ++
        "Deepfake: " ++ pyFormat1f ((13/1000 : ℚ) * 100) ++ "% confident")) ∧
    analyze_video false (.ok []) = (0, .jsonError 400 "No video file provided.") :=
  ⟨(c8_analyze_video (.ok [⟨"Real", 987/1000⟩, ⟨"Deepfake", 13/1000⟩])
      ⟨"Real", 987/1000⟩ ⟨"Deepfake", 13/1000⟩ []).1 rfl,
   (c8_analyze_video (.ok []) ⟨"", 0⟩ ⟨"", 0⟩ []).2⟩

/-! ## The analyze_article request path (check_text.py lines 802-846)

The external calls the function makes before the model responds are
recorded as a trace. The tool functions `check_database_for_url`,
`search_google_for_context` and `fact_check_claims` are collected into the
`agent_tools` list (lines 675-679), but that list is never passed to
`GenerativeModel` or `generate_content` (line 843 passes only the prompt
and a `GenerationConfig` that forces `response_mime_type` to
`application/json`), and none of the three functions is called anywhere in
`analyze_article`; the only pre-response external calls are the language
detection on the first 500 characters and the single `generate_content`
call. The system instruction is a fixed string constant (lines 683-792,
parameterised here over its text), so the prompt contains no tool
results. -/

/-- An external call made by `analyze_article` or by the tool functions. -/
inductive ExtCall where
  | detectLanguage (sample : String)
  | generateContent (prompt : String)
  | toolDbCheck (url : String)
  | toolSearch (query : String)
  | toolFactCheck (claims : List String)

/-- Whether a call is one of the three agent tools. -/
def ExtCall.isToolCall : ExtCall → Bool
  | .toolDbCheck _ => true
  | .toolSearch _ => true
  | .toolFactCheck _ => true
  | _ => false

/-- Line 828: the single prompt sent to the model. -/
def buildPrompt (sysInstr url text : String) : String :=
  sysInstr ++ "\n\nAnalyze the following article:\nURL: " ++ url ++ "\n\nText:\n" ++ text

/-- The external calls `analyze_article` makes up to and including the
model invocation: nothing on the early empty-input return, otherwise
language detection on `article_text[:500]` followed by the one
`generate_content` call on the built prompt. -/
def analyze_article_calls (sysInstr url text : String) : List ExtCall :=
  if url = "" ∨ text = "" then []
  else [.detectLanguage (pyTruncate 500 text),
    .generateContent (buildPrompt sysInstr url text)]

/-- C1 (code bug, evaluated at the failing input): for an authorized POST
to /analyze with a non-empty url and article_text, the text-analysis path
makes no call to `check_database_for_url`, `search_google_for_context` or
`fact_check_claims`, and the single prompt sent to the generative model is
the system instruction plus the url and article text with no tool results
merged in - contradicting the claim (and the system instruction's own
MUST-CALL rules). -/
theorem c1_no_tool_calls_eval (sysInstr : String) :
    analyze_article_calls sysInstr "https://example.com" "Sample article text." =
      [.detectLanguage "Sample article text.",
       .generateContent
         (buildPrompt sysInstr "https://example.com" "Sample article text.")] ∧
    (analyze_article_calls sysInstr "https://example.com"
      "Sample article text.").countP (fun c => c.isToolCall) = 0 :=
  ⟨rfl, rfl⟩

/-! ## The response pipeline after a successful json.loads
(check_text.py lines 880-921) and the endpoint status (lines 1002-1025)

`postParse` models lines 880-921 of `analyze_article` on the already
parsed JSON value: the textResult wrap, the label/score membership checks,
the localization block (whose `except Exception` swallows any failure),
and the hand-off of the final value to `update_analysis_results`. A path
that raises `TypeError`/`AttributeError` outside the localization block
falls into the outer blanket handler (lines 958-966), which returns an
error dictionary and persists nothing. -/

/-- Python `"\n".join(x)` on a JSON value: arrays join their (necessarily
string) elements, strings join their characters, dicts join their keys;
`none` models the `TypeError` on the other types and on arrays with a
non-string element. -/
def joinNewline : Json → Option String
  | .arr l =>
    (l.mapM (fun j => match j with | Json.str s => some s | _ => none)).map
      (fun ss => String.intercalate "\n" ss)
  | .str s => some (String.intercalate "\n" (s.toList.map (fun c => String.singleton c)))
  | .obj kvs => some (String.intercalate "\n" (kvs.map (fun p => p.1)))
  | _ => none

/-- The error dictionary returned by the outer blanket handler (lines
958-966; its dynamic `details` field is not modelled). -/
def unexpectedErrorJson : Json :=
  .obj [("textResult",
    .obj [("error", .str "An unexpected server error occurred during analysis interaction.")])]

/-- Lines 880-883: wrap the parsed value into `{"textResult": ...}` unless
the membership test `"textResult" not in analysis_result` finds the key
(objects), the substring (strings) or the element (arrays); `none` models
the `TypeError` that the test raises on null, booleans and numbers. -/
def wrapCheck : Json → Option Json
  | .obj kvs =>
    some (if hasKey kvs "textResult" then .obj kvs else .obj [("textResult", .obj kvs)])
  | .str s =>
    some (if strContains "textResult" s then .str s else .obj [("textResult", .str s)])
  | .arr l =>
    some (if strMem "textResult" l then .arr l else .obj [("textResult", .arr l)])
  | _ => none

/-- Whether the membership checks of lines 887-890 (`"label" not in
text_result`, `"score" not in text_result`) run without a `TypeError`. -/
def memTestOk : Json → Bool
  | .obj _ => true
  | .str _ => true
  | .arr _ => true
  | _ => false

/-- Lines 896-913: the localization block over the wrapped object `kvs`.
The reasoning and educational_insights fields (defaulting to empty lists)
are joined and translated by `tr`, and `localized_summary` is written into
the textResult; any failure inside the block (a non-object textResult, a
join `TypeError`) is caught by its `except Exception` and leaves the value
unchanged. -/
def localizeStep (kvs : List (String × Json)) (tr : String → String) : Json :=
  match (jlookup kvs "textResult").getD (.obj []) with
  | .obj tkvs =>
    match joinNewline ((jlookup tkvs "reasoning").getD (.arr [])),
        joinNewline ((jlookup tkvs "educational_insights").getD (.arr [])) with
    | some r, some i =>
      .obj (setKey kvs "textResult" (.obj (setKey tkvs "localized_summary"
        (.obj [("reasoning", .str (tr r)),
               ("educational_insights", .str (tr i))]))))
    | _, _ => .obj kvs
  | _ => .obj kvs

/-- Outcome of the post-parse pipeline: a finished analysis value together
with the (url, serialized value) row handed to `update_analysis_results`,
or an error response from the outer handler with nothing persisted. -/
inductive PostParseResult where
  | finished (returned : Json) (persisted : String × String)
  | errorResponse (returned : Json)

/-- Lines 880-921 on the parsed value: wrap check, the `.get` on the
result (an `AttributeError` when the unwrapped value is not a dict), the
label/score membership checks, localization when the detected language is
truthy and not `en`, then the database write of the final value. -/
def postParse (url : String) (parsed : Json) (lang : String)
    (tr : String → String) : PostParseResult :=
  match wrapCheck parsed with
  | none => .errorResponse unexpectedErrorJson
  | some a =>
    match a with
    | .obj kvs =>
      let t0 := (jlookup kvs "textResult").getD (.obj [])
      if memTestOk t0 then
        let a1 := if lang ≠ "" ∧ lang ≠ "en" then localizeStep kvs tr else .obj kvs
        .finished a1 (url, Json.dumps a1)
      else .errorResponse unexpectedErrorJson
    | _ => .errorResponse unexpectedErrorJson

/-- Lines 915-921: the `try`/`except DatabaseError` around
`update_analysis_results` logs and swallows a database failure, so the
function's return value is the analysis value in either case. -/
def analyzeArticleResult (pr : PostParseResult) (dbOutcome : Except DbErr Unit) : Json :=
  match pr with
  | .errorResponse r => r
  | .finished ret _ =>
    match dbOutcome with
    | .ok _ => ret
    | .error _ => ret

/-- The elif chain of lines 1016-1023 on the error message (`in` on a
string is a substring test, on a list an element test, on a dict a key
test; `none` models the `TypeError` on other types). -/
def statusFromErrorField (em : Json) : Option Nat :=
  match em with
  | .str s =>
    some (if strContains "Analysis failed due to tool error" s then 502
      else if strContains "Model did not return valid JSON" s ||
        strContains "Model did not provide a final text analysis" s then 500
      else if strContains "URL and article text must be provided" s then 400
      else 500)
  | .arr l =>
    some (if strMem "Analysis failed due to tool error" l then 502
      else if strMem "Model did not return valid JSON" l ||
        strMem "Model did not provide a final text analysis" l then 500
      else if strMem "URL and article text must be provided" l then 400
      else 500)
  | .obj kvs =>
    some (if hasKey kvs "Analysis failed due to tool error" then 502
      else if hasKey kvs "Model did not return valid JSON" ||
        hasKey kvs "Model did not provide a final text analysis" then 500
      else if hasKey kvs "URL and article text must be provided" then 400
      else 500)
  | _ => none

/-- Lines 1002-1025 of `handle_analyze`: the status attached to the
analysis value (`none` models a `TypeError`/`AttributeError` escaping to
Flask). A result whose textResult carries no error is served with 200. -/
def handle_status (result : Json) : Option Nat :=
  match result with
  | .obj kvs =>
    let hasTR := hasKey kvs "textResult"
    let tr0 := (jlookup kvs "textResult").getD (.obj [])
    match pyMemStr "error" tr0 with
    | none => none
    | some errIn =>
      if hasTR && errIn then
        match tr0 with
        | .obj tkvs => statusFromErrorField ((jlookup tkvs "error").getD (.str ""))
        | _ => none
      else some 200
  | _ => none

/-- Whether the final value has the shape of a successful analysis: an
object whose textResult is an object without an `error` field. -/
def noErrorShape : Json → Bool
  | .obj kvs =>
    match jlookup kvs "textResult" with
    | some (.obj tkvs) => !(hasKey tkvs "error")
    | _ => false
  | _ => false

/-- Whether the wrapped value satisfies the shape under which the
localization block of lines 896-913 completes: its textResult is an object
whose reasoning and educational_insights fields (defaulting to empty
lists) are joinable. -/
def localizableShape (parsed : Json) : Bool :=
  match wrapCheck parsed with
  | some (.obj kvs) =>
    match (jlookup kvs "textResult").getD (.obj []) with
    | .obj tkvs =>
      (joinNewline ((jlookup tkvs "reasoning").getD (.arr []))).isSome &&
      (joinNewline ((jlookup tkvs "educational_insights").getD (.arr []))).isSome
    | _ => false
  | _ => false

theorem hasKey_of_jlookup_some (kvs : List (String × Json)) (k : String)
    (v : Json) (h : jlookup kvs k = some v) : hasKey kvs k = true := by
  induction kvs with
  | nil => exact Option.noConfusion h
  | cons p rest ih =>
    obtain ⟨k', v'⟩ := p
    by_cases hk : k' = k
    · simp [hasKey, hk]
    · simp only [jlookup, if_neg hk] at h
      have hrest := ih h
      simp only [hasKey] at hrest
      simp only [hasKey, List.any_cons, hrest]
      simp

/-- C7 (amended): for every successfully parsed model response whose
(wrapped) textResult is an object with joinable reasoning and
educational_insights fields, on an article whose detected language is
non-empty and not `en`, `analyze_article` adds the localized_summary (the
translated joined reasoning and educational_insights) to the textResult
before calling `update_analysis_results`, so the persisted row is the
serialization of the localized value. -/
theorem c7_localization_before_persist (url : String) (parsed : Json)
    (lang : String) (tr : String → String)
    (h1 : lang ≠ "") (h2 : lang ≠ "en")
    (hshape : localizableShape parsed = true) :
    ∃ kvs tkvs r i,
      wrapCheck parsed = some (.obj kvs) ∧
      (jlookup kvs "textResult").getD (.obj []) = .obj tkvs ∧
      joinNewline ((jlookup tkvs "reasoning").getD (.arr [])) = some r ∧
      joinNewline ((jlookup tkvs "educational_insights").getD (.arr [])) = some i ∧
      postParse url parsed lang tr =
        .finished (localizeStep kvs tr) (url, Json.dumps (localizeStep kvs tr)) ∧
      localizeStep kvs tr =
        .obj (setKey kvs "textResult" (.obj (setKey tkvs "localized_summary"
          (.obj [("reasoning", .str (tr r)),
                 ("educational_insights", .str (tr i))])))) := by
  cases hw : wrapCheck parsed with
  | none => simp [localizableShape, hw] at hshape
  | some a =>
    cases a with
    | obj kvs =>
      simp only [localizableShape, hw] at hshape
      cases ht : (jlookup kvs "textResult").getD (.obj []) with
      | obj tkvs =>
        simp only [ht, Bool.and_eq_true, Option.isSome_iff_exists] at hshape
        obtain ⟨⟨r, hr⟩, ⟨i, hi⟩⟩ := hshape
        refine ⟨kvs, tkvs, r, i, rfl, ht, hr, hi, ?_, ?_⟩
        · simp only [postParse, hw, ht, memTestOk]
          simp [h1, h2]
        · simp only [localizeStep, ht, hr, hi]
      | null => simp [ht] at hshape
      | bool b => simp [ht] at hshape
      | num q => simp [ht] at hshape
      | str s => simp [ht] at hshape
      | arr l => simp [ht] at hshape
    | null => simp [localizableShape, hw] at hshape
    | bool b => simp [localizableShape, hw] at hshape
    | num q => simp [localizableShape, hw] at hshape
    | str s => simp [localizableShape, hw] at hshape
    | arr l => simp [localizableShape, hw] at hshape

/-- Witness for C7 (amended) at a concrete parsed response in Hindi: the
localized summary is computed and the persisted row serializes the
localized value. -/
theorem c7_localization_before_persist_witness :
    ∃ kvs tkvs r i,
      wrapCheck (.obj [("textResult",
          .obj [("reasoning", .arr [.str "r1", .str "r2"]),
                ("educational_insights", .arr [.str "e1"])])]) = some (.obj kvs) ∧
      (jlookup kvs "textResult").getD (.obj []) = .obj tkvs ∧
      joinNewline ((jlookup tkvs "reasoning").getD (.arr [])) = some r ∧
      joinNewline ((jlookup tkvs "educational_insights").getD (.arr [])) = some i ∧
      postParse "https://u" (.obj [("textResult",
          .obj [("reasoning", .arr [.str "r1", .str "r2"]),
                ("educational_insights", .arr [.str "e1"])])]) "hi" id =
        .finished (localizeStep kvs id) ("https://u", Json.dumps (localizeStep kvs id)) ∧
      localizeStep kvs id =
        .obj (setKey kvs "textResult" (.obj (setKey tkvs "localized_summary"
          (.obj [("reasoning", .str (id r)),
                 ("educational_insights", .str (id i))])))) :=
  c7_localization_before_persist "https://u"
    (.obj [("textResult",
        .obj [("reasoning", .arr [.str "r1", .str "r2"]),
              ("educational_insights", .arr [.str "e1"])])]) "hi" id
    (by decide) (by decide) (by decide)

/-- Counterexample to C7 as stated: a successfully parsed response whose
textResult is a plain string, analyzed on a non-English article. The
localization block raises `AttributeError` on `text_result.get`, the
`except Exception` swallows it, and the value is persisted with no
localized_summary - against the claim that every successfully parsed
response on a non-English article is persisted with the localized
summary. -/
theorem c7_counterexample_unlocalized_persist :
    postParse "https://u" (.obj [("textResult", .str "no fields")]) "hi" id =
      .finished (.obj [("textResult", .str "no fields")])
        ("https://u", Json.dumps (.obj [("textResult", .str "no fields")])) ∧
    (match Json.obj [("textResult", Json.str "no fields")] with
      | .obj kvs =>
        match jlookup kvs "textResult" with
        | some (.obj tkvs) => hasKey tkvs "localized_summary"
        | _ => false
      | _ => false) = false :=
  ⟨rfl, rfl⟩

/-- C10: when the parsed analysis finishes with a value whose textResult
carries no error field, a `DatabaseError` raised by
`update_analysis_results` is swallowed, `analyze_article` still returns
the value unchanged, and `handle_analyze` serves it with HTTP 200 even
though the row was not stored. -/
theorem c10_db_error_swallowed (url : String) (parsed : Json) (lang : String)
    (tr : String → String) (ret : Json) (w : String × String) (e : DbErr)
    (hpost : postParse url parsed lang tr = .finished ret w)
    (hshape : noErrorShape ret = true) :
    analyzeArticleResult (postParse url parsed lang tr) (.error e) = ret ∧
    handle_status ret = some 200 := by
  constructor
  · rw [hpost]
    rfl
  · cases ret with
    | obj kvs =>
      cases hjl : jlookup kvs "textResult" with
      | none => simp [noErrorShape, hjl] at hshape
      | some v =>
        cases v with
        | obj tkvs =>
          simp only [noErrorShape, hjl, Bool.not_eq_true'] at hshape
          have hk : hasKey kvs "textResult" = true :=
            hasKey_of_jlookup_some kvs "textResult" (.obj tkvs) hjl
          simp only [handle_status, hjl, Option.getD_some, pyMemStr, hk,
            hshape, Bool.and_false, if_false]
          simp
        | null => simp [noErrorShape, hjl] at hshape
        | bool b => simp [noErrorShape, hjl] at hshape
        | num q => simp [noErrorShape, hjl] at hshape
        | str s => simp [noErrorShape, hjl] at hshape
        | arr l => simp [noErrorShape, hjl] at hshape
    | null => exact Bool.noConfusion hshape
    | bool b => exact Bool.noConfusion hshape
    | num q => exact Bool.noConfusion hshape
    | str s => exact Bool.noConfusion hshape
    | arr l => exact Bool.noConfusion hshape

/-- Witness for C10 at a concrete parsed response: with the database write
failing, the analysis value is returned unchanged and served with 200. -/
theorem c10_db_error_swallowed_witness :
    analyzeArticleResult
      (postParse "https://u" (.obj [("textResult", .obj [("label", .str "LABEL_0")])])
        "en" id)
      (.error (.failure "connection lost")) =
        .obj [("textResult", .obj [("label", .str "LABEL_0")])] ∧
    handle_status (.obj [("textResult", .obj [("label", .str "LABEL_0")])]) =
      some 200 :=
  c10_db_error_swallowed "https://u"
    (.obj [("textResult", .obj [("label", .str "LABEL_0")])]) "en" id
    (.obj [("textResult", .obj [("label", .str "LABEL_0")])])
    ("https://u", Json.dumps (.obj [("textResult", .obj [("label", .str "LABEL_0")])]))
    (.failure "connection lost") rfl rfl

end TruthScope
